import Mathlib

/-!
Shallow embedding of the budget-execution (PAC) report logic of the
robo-dou-corm repository.

Sources embedded here:
  * src/static/pac.js          - fetchAndRenderTable / fetchAndRenderChart,
                                 formatCurrency, formatPercent (legacy variant)
  * src/unnamed/part_001       - the later variant of the same file: an extra
                                 NaN check in formatPercent and the extended
                                 indicator (Empenhado - Disponivel) / Empenhado
  * src/unnamed/part_000       - the static dataset PAC_DB and renderizarTabela

Monetary amounts are modelled as exact rationals (the JSON literals in the
source all have at most two decimal places, so every stored value is exact
in binary-independent arithmetic).  JavaScript values that flow through the
formatting helpers are modelled by the inductive type JSValue; the special
floating-point value NaN is a separate constructor because `typeof NaN` is
the string "number" in JavaScript while `isNaN NaN` is true, and the two
formatPercent variants treat it differently.
-/

set_option allowUnsafeReducibility true

attribute [semireducible] Rat.ofScientific Rat.mul Rat.add Rat.sub Rat.inv Rat.neg

/-- Model of a JavaScript value as it reaches the formatting helpers:
a finite number, the special number NaN, null, undefined, or a string. -/
inductive JSValue where
  | num (q : ℚ)
  | nan
  | null
  | undefined
  | str (s : String)
  deriving DecidableEq, Repr

/-- JavaScript `typeof v === "number"`; true for finite numbers and for NaN. -/
def JSValue.isNumberType : JSValue → Bool
  | .num _ => true
  | .nan => true
  | _ => false

/-- Round a rational to the nearest integer, halves away from zero: the
default rounding mode ("halfExpand") of `Intl.NumberFormat`, which backs
`Number.prototype.toLocaleString`. -/
def roundHalfAway (x : ℚ) : ℤ :=
  if x < 0 then -(Rat.floor (-x + 1 / 2)) else Rat.floor (x + 1 / 2)

/-- Insert a dot after every three characters of a reversed digit list;
helper for the pt-BR thousands grouping of `toLocaleString`. -/
def chunk3Rev : List Char → List Char
  | a :: b :: c :: d :: rest => a :: b :: c :: '.' :: chunk3Rev (d :: rest)
  | l => l

/-- Group the digits of a decimal string in threes with dots, pt-BR style
(for example "1234567" becomes "1.234.567"). -/
def groupThousands (s : String) : String :=
  String.mk (chunk3Rev s.data.reverse).reverse

/-- Left-pad a digit string with zeros up to the requested length. -/
def padLeftZeros (s : String) (len : ℕ) : String :=
  String.mk (List.replicate (len - s.data.length) '0') ++ s

/-- Model of `q.toLocaleString("pt-BR", {minimumFractionDigits: d,
maximumFractionDigits: d})` for a finite number `q`: fixed `d` fraction
digits, comma as the decimal separator, dots grouping the integer part in
threes, and a leading minus sign for negative results. -/
def formatFixedPtBR (q : ℚ) (d : ℕ) : String :=
  let n : ℤ := roundHalfAway (q * (10 : ℚ) ^ d)
  let m : ℕ := n.natAbs
  let ip : ℕ := m / 10 ^ d
  let fp : ℕ := m % 10 ^ d
  let sign : String := if n < 0 then "-" else ""
  let ipStr : String := groupThousands (toString ip)
  if d = 0 then sign ++ ipStr
  else sign ++ ipStr ++ "," ++ padLeftZeros (toString fp) d

/-- The function `formatCurrency` of src/static/pac.js (identical in
src/unnamed/part_001): a non-number (by `typeof`) renders as "R$ 0,00";
a number renders with two fixed decimals; NaN is of number type and
`toLocaleString` renders it as the string "NaN". -/
def formatCurrency : JSValue → String
  | .num q => "R$ " ++ formatFixedPtBR q 2
  | .nan => "R$ " ++ "NaN"
  | _ => "R$ 0,00"

/-- The function `formatPercent` of src/static/pac.js: only the
`typeof value !== "number"` guard, so NaN (of number type) slips through
and renders as "NaN%"; a finite number is multiplied by 100 and rendered
with one fixed decimal. -/
def formatPercent : JSValue → String
  | .num q => formatFixedPtBR (q * 100) 1 ++ "%"
  | .nan => "NaN%"
  | _ => "0,0%"

/-- The function `formatPercent` of src/unnamed/part_001: the guard is
`typeof value !== "number" || isNaN(value)`, so NaN also renders as
"0,0%". -/
def formatPercentChecked : JSValue → String
  | .num q => formatFixedPtBR (q * 100) 1 ++ "%"
  | _ => "0,0%"

/-- Value of one numeric field of a row of the JSON array returned by
`GET /api/pac-data/{year}`: a JSON number or JSON null (absent keys read as
undefined behave like null through the `|| 0` coalescing below, so null
also stands for an absent key). -/
inductive ApiNum where
  | num (q : ℚ)
  | null
  deriving DecidableEq, Repr

/-- The JavaScript expression `v || 0` applied to a numeric field: null
(or an absent key) and the number 0 are falsy and yield 0; any other
number is truthy and is kept. -/
def ApiNum.orZero : ApiNum → ℚ
  | .num q => if q = 0 then 0 else q
  | .null => 0

/-- View an API field value as a JSValue (for the formatting helpers,
which receive the raw field in src/static/pac.js). -/
def ApiNum.toJS : ApiNum → JSValue
  | .num q => .num q
  | .null => .null

/-- One row object of the JSON array returned by `GET /api/pac-data/{year}`.
Key names follow the upstream JSON (PROGRAMA, AÇÃO, LOA, DOTAÇÃO ATUAL,
DISPONÍVEL, EMPENHADO (c), LIQUIDADO, PAGO, % EMP/DOT), transliterated to
Lean identifiers.  PROGRAMA and AÇÃO are strings or null. -/
structure ApiRow where
  PROGRAMA : Option String
  ACAO : Option String
  LOA : ApiNum
  DOTACAO_ATUAL : ApiNum
  DISPONIVEL : ApiNum
  EMPENHADO_c : ApiNum
  LIQUIDADO : ApiNum
  PAGO : ApiNum
  PCT_EMP_DOT : ApiNum
  deriving DecidableEq, Repr

/-- The visual row class assigned in fetchAndRenderTable: row-total,
row-programa or row-acao. -/
inductive RowKind where
  | GrandTotal
  | ProgramHeader
  | ActionRow
  deriving DecidableEq, Repr

/-- Row classification of fetchAndRenderTable (identical in
src/static/pac.js and src/unnamed/part_001):
`if (rowData.PROGRAMA === "Total Geral") ... else if (rowData.AÇÃO === null)
... else ...`. -/
def classifyRow (programa : Option String) (acao : Option String) : RowKind :=
  if programa = some "Total Geral" then .GrandTotal
  else if acao = none then .ProgramHeader
  else .ActionRow

/-- The extended execution indicator of src/unnamed/part_001
(fetchAndRenderTable): `empenhado` and `disponivel` are the row fields
coalesced through `|| 0`; the indicator starts at 0 and becomes
`(empenhado - disponivel) / empenhado` when `empenhado !== 0`. -/
def novoIndicador (row : ApiRow) : ℚ :=
  let empenhado := row.EMPENHADO_c.orZero
  let disponivel := row.DISPONIVEL.orZero
  if empenhado ≠ 0 then (empenhado - disponivel) / empenhado else 0

/-- The JavaScript expression `value || ""` for a string-or-null cell
(PROGRAMA and AÇÃO columns): null and the empty string are falsy. -/
def strOrEmpty : Option String → String
  | some s => if s = "" then "" else s
  | none => ""

/-- Header labels of the table of src/static/pac.js, in source order. -/
def pacHeaders : List String :=
  ["PROGRAMA", "AÇÃO", "LOA", "DOTAÇÃO ATUAL",
   "EMPENHADO (c)", "LIQUIDADO", "PAGO", "% EMP/DOT"]

/-- One rendered table row of src/static/pac.js: the visual class from the
row classification, and one formatted cell per header (PROGRAMA and AÇÃO
as text with `|| ""`, the percentage column through formatPercent, every
other column through formatCurrency). -/
def pacRenderRow (r : ApiRow) : RowKind × List String :=
  (classifyRow r.PROGRAMA r.ACAO,
   [strOrEmpty r.PROGRAMA,
    strOrEmpty r.ACAO,
    formatCurrency r.LOA.toJS,
    formatCurrency r.DOTACAO_ATUAL.toJS,
    formatCurrency r.EMPENHADO_c.toJS,
    formatCurrency r.LIQUIDADO.toJS,
    formatCurrency r.PAGO.toJS,
    formatPercent r.PCT_EMP_DOT.toJS])

/-- State of the table area of the page: current header cells, current body
rows, the error banner (none when hidden), and whether the table container
is displayed. -/
structure TableView where
  header : List String
  body : List (RowKind × List String)
  errorText : Option String
  containerVisible : Bool
  deriving DecidableEq, Repr

/-- Outcome of the `fetch` + `response.json()` pair for
`GET /api/pac-data/{year}`: the ok flag and status of the response and the
parsed JSON body (the `detail` string of an error body, or the row array
of a success body).  Malformed-JSON bodies, which make `response.json()`
itself throw, are outside this model. -/
structure ApiResponse where
  ok : Bool
  status : ℕ
  detail : Option String
  rows : List ApiRow
  deriving DecidableEq, Repr

/-- The thrown error message `data.detail || "Erro HTTP " + response.status`
of fetchAndRenderTable: a missing or empty (falsy) detail falls back to the
HTTP status text. -/
def errMessage (resp : ApiResponse) : String :=
  match resp.detail with
  | some d => if d = "" then "Erro HTTP " ++ toString resp.status else d
  | none => "Erro HTTP " ++ toString resp.status

/-- The observable effect of one run of fetchAndRenderTable of
src/static/pac.js on the table area, given the previous state and the
upstream response.  On a non-ok response the function throws before the
`innerHTML = ""` lines, so the previous header and body survive, the error
banner shows `Erro ao consultar {ano}: {message}`, and the container stays
hidden.  On an ok response the old table is cleared and rebuilt: the fixed
headers, one row per element of the data array in array order, no error
banner, container shown. -/
def fetchAndRenderTable (prev : TableView) (ano : String) (resp : ApiResponse) :
    TableView :=
  if resp.ok then
    { header := pacHeaders
      body := resp.rows.map pacRenderRow
      errorText := none
      containerVisible := true }
  else
    { header := prev.header
      body := prev.body
      errorText := some ("Erro ao consultar " ++ ano ++ ": " ++ errMessage resp)
      containerVisible := false }

/-- Whether `pat` occurs as a contiguous substring of the list `l`
(character lists). -/
def containsSubAux (pat : List Char) : List Char → Bool
  | [] => pat.isEmpty
  | c :: rest => pat.isPrefixOf (c :: rest) || containsSubAux pat rest

/-- Model of JavaScript `s.includes(pat)`. -/
def containsSubstring (s pat : String) : Bool :=
  containsSubAux pat.data s.data

/-- The distinct error banner of src/static/pac.js shown when the
historical-series fetch failed with a message containing "404". -/
def pacCompilingMsg : String :=
  "O robô ainda está compilando os dados históricos. Por favor, aguarde a execução das 05h35 ou consulte a tabela manualmente abaixo."

/-- The observable effect of the catch block of fetchAndRenderChart of
src/static/pac.js: which error banner is shown, and the year passed to the
fetchAndRenderTable fallback call (none would mean no fallback call). -/
structure ChartCatchOutcome where
  errorText : String
  tableFetchYear : Option ℕ
  deriving DecidableEq, Repr

/-- The catch block of fetchAndRenderChart of src/static/pac.js: if
`err.message.includes("404")` the distinct "compiling" banner is shown,
otherwise the generic banner; then, unconditionally,
`fetchAndRenderTable(currentYear)` is invoked. -/
def fetchAndRenderChartCatch (errMsg : String) (currentYear : ℕ) :
    ChartCatchOutcome :=
  { errorText :=
      if containsSubstring errMsg "404" then pacCompilingMsg
      else "Erro ao carregar o gráfico: " ++ errMsg
    tableFetchYear := some currentYear }

/-- One record of the static dataset PAC_DB of src/unnamed/part_000: the
execution snapshot of one action for one reporting month.  Amounts are the
exact decimal values of the JavaScript literals, as rationals. -/
structure StaticRecord where
  Mes : String
  Acao : String
  Desc : String
  Dotacao : ℚ
  Provisao : ℚ
  Destaque : ℚ
  Disponivel : ℚ
  Empenhado : ℚ
  Pago : ℚ
  deriving DecidableEq, Repr

/-- The PAC_DB entry for year 2026 of src/unnamed/part_000. -/
def pac2026 : List StaticRecord :=
  [{ Mes := "JAN/2026", Acao := "123G",
     Desc := "IMPLANTACAO DE ESTALEIRO E BASE NAVAL PARA CONSTRUCAO E MANU",
     Dotacao := 0.0, Provisao := 0.0, Destaque := 0.0,
     Disponivel := 0.0, Empenhado := 0.0, Pago := 0.0 },
   { Mes := "JAN/2026", Acao := "123H",
     Desc := "CONSTRUCAO DE SUBMARINO DE PROPULSAO NUCLEAR",
     Dotacao := 0.0, Provisao := 0.0, Destaque := 0.0,
     Disponivel := 0.0, Empenhado := 0.0, Pago := 0.0 },
   { Mes := "JAN/2026", Acao := "123I",
     Desc := "CONSTRUCAO DE SUBMARINOS CONVENCIONAIS",
     Dotacao := 0.0, Provisao := 0.0, Destaque := 0.0,
     Disponivel := 0.0, Empenhado := 0.0, Pago := 0.0 },
   { Mes := "JAN/2026", Acao := "14T7",
     Desc := "DESENVOLVIMENTO DE SISTEMAS DE TECNOLOGIA NUCLEAR DA MARINHA",
     Dotacao := 0.0, Provisao := 0.0, Destaque := 0.0,
     Disponivel := 0.0, Empenhado := 0.0, Pago := 0.0 },
   { Mes := "JAN/2026", Acao := "1N47",
     Desc := "CONSTRUCAO DE NAVIOS-PATRULHA DE 500 TONELADAS (NPA 500T)",
     Dotacao := 33667477.0, Provisao := 0.0, Destaque := 0.0,
     Disponivel := 33667477.0, Empenhado := 0.0, Pago := 0.0 }]

/-- The PAC_DB entry for year 2025 of src/unnamed/part_000. -/
def pac2025 : List StaticRecord :=
  [{ Mes := "DEZ/2025", Acao := "123G",
     Desc := "IMPLANTACAO DE ESTALEIRO E BASE NAVAL PARA CONSTRUCAO E MANU",
     Dotacao := 250000.0, Provisao := 250000.0, Destaque := 0.0,
     Disponivel := 0.0, Empenhado := 250000.0, Pago := 0.0 },
   { Mes := "DEZ/2025", Acao := "123H",
     Desc := "CONSTRUCAO DE SUBMARINO DE PROPULSAO NUCLEAR",
     Dotacao := 332675762.0, Provisao := 273641399.0, Destaque := 0.0,
     Disponivel := 4122.37, Empenhado := 332671639.63, Pago := 113333333.34 },
   { Mes := "DEZ/2025", Acao := "123I",
     Desc := "CONSTRUCAO DE SUBMARINOS CONVENCIONAIS",
     Dotacao := 9324707.0, Provisao := 8802927.0, Destaque := 0.0,
     Disponivel := 2185.0, Empenhado := 9322522.0, Pago := 0.0 },
   { Mes := "DEZ/2025", Acao := "14T7",
     Desc := "DESENVOLVIMENTO DE SISTEMAS DE TECNOLOGIA NUCLEAR DA MARINHA",
     Dotacao := 161822453.0, Provisao := 149309536.0, Destaque := 0.0,
     Disponivel := 0.0, Empenhado := 161822453.0, Pago := 12852233.0 },
   { Mes := "DEZ/2025", Acao := "1N47",
     Desc := "CONSTRUCAO DE NAVIOS-PATRULHA DE 500 TONELADAS (NPA 500T)",
     Dotacao := 38118023.0, Provisao := 0.0, Destaque := 0.0,
     Disponivel := 38118023.0, Empenhado := 0.0, Pago := 0.0 }]

/-- The PAC_DB entry for year 2024 of src/unnamed/part_000. -/
def pac2024 : List StaticRecord :=
  [{ Mes := "DEZ/2024", Acao := "123G",
     Desc := "IMPLANTACAO DE ESTALEIRO E BASE NAVAL PARA CONSTRUCAO E MANU",
     Dotacao := 38553255.0, Provisao := 38553255.0, Destaque := 0.0,
     Disponivel := 0.0, Empenhado := 38553255.0, Pago := 24200787.97 },
   { Mes := "DEZ/2024", Acao := "123H",
     Desc := "CONSTRUCAO DE SUBMARINO DE PROPULSAO NUCLEAR",
     Dotacao := 401679090.0, Provisao := 387034503.0, Destaque := 0.0,
     Disponivel := 0.0, Empenhado := 401679090.0, Pago := 393112679.52 },
   { Mes := "DEZ/2024", Acao := "123I",
     Desc := "CONSTRUCAO DE SUBMARINOS CONVENCIONAIS",
     Dotacao := 14163907.0, Provisao := 13955214.0, Destaque := 0.0,
     Disponivel := 0.0, Empenhado := 14163907.0, Pago := 12450558.8 },
   { Mes := "DEZ/2024", Acao := "14T7",
     Desc := "DESENVOLVIMENTO DE SISTEMAS DE TECNOLOGIA NUCLEAR DA MARINHA",
     Dotacao := 254823439.0, Provisao := 252627055.0, Destaque := 0.0,
     Disponivel := 4543.14, Empenhado := 254818895.86, Pago := 247067824.28 },
   { Mes := "DEZ/2024", Acao := "1N47",
     Desc := "CONSTRUCAO DE NAVIOS-PATRULHA DE 500 TONELADAS (NPA 500T)",
     Dotacao := 46560000.0, Provisao := 0.0, Destaque := 0.0,
     Disponivel := 0.0, Empenhado := 46560000.0, Pago := 0.0 }]

/-- The PAC_DB entry for year 2023 of src/unnamed/part_000. -/
def pac2023 : List StaticRecord :=
  [{ Mes := "DEZ/2023", Acao := "123G",
     Desc := "IMPLANTACAO DE ESTALEIRO E BASE NAVAL PARA CONSTRUCAO E MANU",
     Dotacao := 10839846.0, Provisao := 10839846.0, Destaque := 0.0,
     Disponivel := 0.0, Empenhado := 10839846.0, Pago := 10328906.59 },
   { Mes := "DEZ/2023", Acao := "123H",
     Desc := "CONSTRUCAO DE SUBMARINO DE PROPULSAO NUCLEAR",
     Dotacao := 487232231.0, Provisao := 487232231.0, Destaque := 0.0,
     Disponivel := 0.0, Empenhado := 487232231.0, Pago := 444391624.4 },
   { Mes := "DEZ/2023", Acao := "123I",
     Desc := "CONSTRUCAO DE SUBMARINOS CONVENCIONAIS",
     Dotacao := 4181966.0, Provisao := 4181966.0, Destaque := 0.0,
     Disponivel := 0.0, Empenhado := 4181966.0, Pago := 4165509.77 },
   { Mes := "DEZ/2023", Acao := "14T7",
     Desc := "DESENVOLVIMENTO DE SISTEMAS DE TECNOLOGIA NUCLEAR DA MARINHA",
     Dotacao := 322699318.0, Provisao := 315995470.0, Destaque := 0.0,
     Disponivel := 0.0, Empenhado := 322699318.0, Pago := 318534080.31 },
   { Mes := "DEZ/2023", Acao := "1N47",
     Desc := "CONSTRUCAO DE NAVIOS-PATRULHA DE 500 TONELADAS (NPA 500T)",
     Dotacao := 481155.0, Provisao := 0.0, Destaque := 0.0,
     Disponivel := 481155.0, Empenhado := 0.0, Pago := 0.0 }]

/-- The PAC_DB entry for year 2022 of src/unnamed/part_000. -/
def pac2022 : List StaticRecord :=
  [{ Mes := "DEZ/2022", Acao := "123G",
     Desc := "IMPLANTACAO DE ESTALEIRO E BASE NAVAL PARA CONSTRUCAO E MANU",
     Dotacao := 17871897.0, Provisao := 17871897.0, Destaque := 0.0,
     Disponivel := 0.0, Empenhado := 17871897.0, Pago := 16422206.52 },
   { Mes := "DEZ/2022", Acao := "123H",
     Desc := "CONSTRUCAO DE SUBMARINO DE PROPULSAO NUCLEAR",
     Dotacao := 395996238.0, Provisao := 395996238.0, Destaque := 0.0,
     Disponivel := 0.0, Empenhado := 395996238.0, Pago := 372439369.83 },
   { Mes := "DEZ/2022", Acao := "123I",
     Desc := "CONSTRUCAO DE SUBMARINOS CONVENCIONAIS",
     Dotacao := 10077840.0, Provisao := 10077840.0, Destaque := 0.0,
     Disponivel := 0.0, Empenhado := 10077840.0, Pago := 10077840.0 },
   { Mes := "DEZ/2022", Acao := "14T7",
     Desc := "DESENVOLVIMENTO DE SISTEMAS DE TECNOLOGIA NUCLEAR DA MARINHA",
     Dotacao := 259640822.0, Provisao := 252996962.0, Destaque := 0.0,
     Disponivel := 0.0, Empenhado := 259640822.0, Pago := 255297121.73 },
   { Mes := "DEZ/2022", Acao := "1N47",
     Desc := "CONSTRUCAO DE NAVIOS-PATRULHA DE 500 TONELADAS (NPA 500T)",
     Dotacao := 0.0, Provisao := 0.0, Destaque := 0.0,
     Disponivel := 0.0, Empenhado := 0.0, Pago := 0.0 }]

/-- The PAC_DB entry for year 2021 of src/unnamed/part_000. -/
def pac2021 : List StaticRecord :=
  [{ Mes := "DEZ/2021", Acao := "123G",
     Desc := "IMPLANTACAO DE ESTALEIRO E BASE NAVAL PARA CONSTRUCAO E MANU",
     Dotacao := 13998965.0, Provisao := 13998965.0, Destaque := 0.0,
     Disponivel := 0.0, Empenhado := 13998965.0, Pago := 12850977.29 },
   { Mes := "DEZ/2021", Acao := "123H",
     Desc := "CONSTRUCAO DE SUBMARINO DE PROPULSAO NUCLEAR",
     Dotacao := 255530722.0, Provisao := 255530722.0, Destaque := 0.0,
     Disponivel := 0.0, Empenhado := 255530722.0, Pago := 242044813.06 },
   { Mes := "DEZ/2021", Acao := "123I",
     Desc := "CONSTRUCAO DE SUBMARINOS CONVENCIONAIS",
     Dotacao := 5267156.0, Provisao := 5267156.0, Destaque := 0.0,
     Disponivel := 0.0, Empenhado := 5267156.0, Pago := 5267156.0 },
   { Mes := "DEZ/2021", Acao := "14T7",
     Desc := "DESENVOLVIMENTO DE SISTEMAS DE TECNOLOGIA NUCLEAR DA MARINHA",
     Dotacao := 218731175.0, Provisao := 213791175.0, Destaque := 0.0,
     Disponivel := 0.0, Empenhado := 218731175.0, Pago := 204068565.48 },
   { Mes := "DEZ/2021", Acao := "1N47",
     Desc := "CONSTRUCAO DE NAVIOS-PATRULHA DE 500 TONELADAS (NPA 500T)",
     Dotacao := 0.0, Provisao := 0.0, Destaque := 0.0,
     Disponivel := 0.0, Empenhado := 0.0, Pago := 0.0 }]

/-- The PAC_DB entry for year 2020 of src/unnamed/part_000. -/
def pac2020 : List StaticRecord :=
  [{ Mes := "DEZ/2020", Acao := "123G",
     Desc := "IMPLANTACAO DE ESTALEIRO E BASE NAVAL PARA CONSTRUCAO E MANU",
     Dotacao := 20297079.0, Provisao := 20297079.0, Destaque := 0.0,
     Disponivel := 0.0, Empenhado := 20297079.0, Pago := 18261368.5 },
   { Mes := "DEZ/2020", Acao := "123H",
     Desc := "CONSTRUCAO DE SUBMARINO DE PROPULSAO NUCLEAR",
     Dotacao := 235166299.0, Provisao := 235166299.0, Destaque := 0.0,
     Disponivel := 0.0, Empenhado := 235166299.0, Pago := 230752495.73 },
   { Mes := "DEZ/2020", Acao := "123I",
     Desc := "CONSTRUCAO DE SUBMARINOS CONVENCIONAIS",
     Dotacao := 13350325.0, Provisao := 13350325.0, Destaque := 0.0,
     Disponivel := 0.0, Empenhado := 13350325.0, Pago := 13350325.0 },
   { Mes := "DEZ/2020", Acao := "14T7",
     Desc := "DESENVOLVIMENTO DE SISTEMAS DE TECNOLOGIA NUCLEAR DA MARINHA",
     Dotacao := 251877685.0, Provisao := 250377685.0, Destaque := 0.0,
     Disponivel := 0.0, Empenhado := 251877685.0, Pago := 249071065.73 },
   { Mes := "DEZ/2020", Acao := "1N47",
     Desc := "CONSTRUCAO DE NAVIOS-PATRULHA DE 500 TONELADAS (NPA 500T)",
     Dotacao := 0.0, Provisao := 0.0, Destaque := 0.0,
     Disponivel := 0.0, Empenhado := 0.0, Pago := 0.0 }]

/-- The PAC_DB entry for year 2019 of src/unnamed/part_000. -/
def pac2019 : List StaticRecord :=
  [{ Mes := "DEZ/2019", Acao := "123G",
     Desc := "IMPLANTACAO DE ESTALEIRO E BASE NAVAL PARA CONSTRUCAO E MANU",
     Dotacao := 52627961.0, Provisao := 52627961.0, Destaque := 0.0,
     Disponivel := 0.0, Empenhado := 52627961.0, Pago := 50669273.68 },
   { Mes := "DEZ/2019", Acao := "123H",
     Desc := "CONSTRUCAO DE SUBMARINO DE PROPULSAO NUCLEAR",
     Dotacao := 300099498.0, Provisao := 300099498.0, Destaque := 0.0,
     Disponivel := 0.0, Empenhado := 300099498.0, Pago := 298377700.32 },
   { Mes := "DEZ/2019", Acao := "123I",
     Desc := "CONSTRUCAO DE SUBMARINOS CONVENCIONAIS",
     Dotacao := 250000.0, Provisao := 250000.0, Destaque := 0.0,
     Disponivel := 0.0, Empenhado := 250000.0, Pago := 250000.0 },
   { Mes := "DEZ/2019", Acao := "14T7",
     Desc := "DESENVOLVIMENTO DE SISTEMAS DE TECNOLOGIA NUCLEAR DA MARINHA",
     Dotacao := 213192461.0, Provisao := 213192461.0, Destaque := 0.0,
     Disponivel := 0.0, Empenhado := 213192461.0, Pago := 212450702.04 },
   { Mes := "DEZ/2019", Acao := "1N47",
     Desc := "CONSTRUCAO DE NAVIOS-PATRULHA DE 500 TONELADAS (NPA 500T)",
     Dotacao := 0.0, Provisao := 0.0, Destaque := 0.0,
     Disponivel := 0.0, Empenhado := 0.0, Pago := 0.0 }]

/-- The PAC_DB entry for year 2018 of src/unnamed/part_000. -/
def pac2018 : List StaticRecord :=
  [{ Mes := "DEZ/2018", Acao := "123G",
     Desc := "IMPLANTACAO DE ESTALEIRO E BASE NAVAL PARA CONSTRUCAO E MANU",
     Dotacao := 161947881.0, Provisao := 158580228.0, Destaque := 0.0,
     Disponivel := 0.0, Empenhado := 161947881.0, Pago := 161821896.79 },
   { Mes := "DEZ/2018", Acao := "123H",
     Desc := "CONSTRUCAO DE SUBMARINO DE PROPULSAO NUCLEAR",
     Dotacao := 527581781.0, Provisao := 526244675.0, Destaque := 0.0,
     Disponivel := 0.0, Empenhado := 527581781.0, Pago := 472534575.48 },
   { Mes := "DEZ/2018", Acao := "123I",
     Desc := "CONSTRUCAO DE SUBMARINOS CONVENCIONAIS",
     Dotacao := 48100142.0, Provisao := 48100142.0, Destaque := 0.0,
     Disponivel := 0.0, Empenhado := 48100142.0, Pago := 48100142.0 },
   { Mes := "DEZ/2018", Acao := "14T7",
     Desc := "DESENVOLVIMENTO DE SISTEMAS DE TECNOLOGIA NUCLEAR DA MARINHA",
     Dotacao := 302094244.0, Provisao := 300094244.0, Destaque := 0.0,
     Disponivel := 0.0, Empenhado := 302094244.0, Pago := 301419777.67 },
   { Mes := "DEZ/2018", Acao := "1N47",
     Desc := "CONSTRUCAO DE NAVIOS-PATRULHA DE 500 TONELADAS (NPA 500T)",
     Dotacao := 0.0, Provisao := 0.0, Destaque := 0.0,
     Disponivel := 0.0, Empenhado := 0.0, Pago := 0.0 }]

/-- The PAC_DB entry for year 2017 of src/unnamed/part_000. -/
def pac2017 : List StaticRecord :=
  [{ Mes := "DEZ/2017", Acao := "123G",
     Desc := "IMPLANTACAO DE ESTALEIRO E BASE NAVAL PARA CONSTRUCAO E MANU",
     Dotacao := 544026366.0, Provisao := 543326366.0, Destaque := 0.0,
     Disponivel := 0.0, Empenhado := 544026366.0, Pago := 544026366.0 },
   { Mes := "DEZ/2017", Acao := "123H",
     Desc := "CONSTRUCAO DE SUBMARINO DE PROPULSAO NUCLEAR",
     Dotacao := 454316278.0, Provisao := 454316278.0, Destaque := 0.0,
     Disponivel := 0.0, Empenhado := 454316278.0, Pago := 454316278.0 },
   { Mes := "DEZ/2017", Acao := "123I",
     Desc := "CONSTRUCAO DE SUBMARINOS CONVENCIONAIS",
     Dotacao := 490514107.0, Provisao := 490514107.0, Destaque := 0.0,
     Disponivel := 0.0, Empenhado := 490514107.0, Pago := 490514107.0 },
   { Mes := "DEZ/2017", Acao := "14T7",
     Desc := "DESENVOLVIMENTO DE SISTEMAS DE TECNOLOGIA NUCLEAR DA MARINHA",
     Dotacao := 242095908.0, Provisao := 242095908.0, Destaque := 0.0,
     Disponivel := 0.0, Empenhado := 242095908.0, Pago := 241951908.0 },
   { Mes := "DEZ/2017", Acao := "1N47",
     Desc := "CONSTRUCAO DE NAVIOS-PATRULHA DE 500 TONELADAS (NPA 500T)",
     Dotacao := 0.0, Provisao := 0.0, Destaque := 0.0,
     Disponivel := 0.0, Empenhado := 0.0, Pago := 0.0 }]

/-- The PAC_DB entry for year 2016 of src/unnamed/part_000. -/
def pac2016 : List StaticRecord :=
  [{ Mes := "DEZ/2016", Acao := "123G",
     Desc := "IMPLANTACAO DE ESTALEIRO E BASE NAVAL PARA CONSTRUCAO E MANU",
     Dotacao := 508107767.0, Provisao := 508107767.0, Destaque := 0.0,
     Disponivel := 0.0, Empenhado := 508107767.0, Pago := 508107767.0 },
   { Mes := "DEZ/2016", Acao := "123H",
     Desc := "CONSTRUCAO DE SUBMARINO DE PROPULSAO NUCLEAR",
     Dotacao := 444390000.0, Provisao := 444390000.0, Destaque := 0.0,
     Disponivel := 0.0, Empenhado := 444390000.0, Pago := 444390000.0 },
   { Mes := "DEZ/2016", Acao := "123I",
     Desc := "CONSTRUCAO DE SUBMARINOS CONVENCIONAIS",
     Dotacao := 651666699.0, Provisao := 651666699.0, Destaque := 0.0,
     Disponivel := 0.0, Empenhado := 651666699.0, Pago := 651666699.0 },
   { Mes := "DEZ/2016", Acao := "14T7",
     Desc := "DESENVOLVIMENTO DE SISTEMAS DE TECNOLOGIA NUCLEAR DA MARINHA",
     Dotacao := 246533038.0, Provisao := 246533038.0, Destaque := 0.0,
     Disponivel := 0.0, Empenhado := 246533038.0, Pago := 246533038.0 },
   { Mes := "DEZ/2016", Acao := "1N47",
     Desc := "CONSTRUCAO DE NAVIOS-PATRULHA DE 500 TONELADAS (NPA 500T)",
     Dotacao := 402206.0, Provisao := 0.0, Destaque := 0.0,
     Disponivel := 402206.0, Empenhado := 0.0, Pago := 0.0 }]

/-- The PAC_DB entry for year 2015 of src/unnamed/part_000. -/
def pac2015 : List StaticRecord :=
  [{ Mes := "DEZ/2015", Acao := "123G",
     Desc := "IMPLANTACAO DE ESTALEIRO E BASE NAVAL PARA CONSTRUCAO E MANU",
     Dotacao := 709970921.0, Provisao := 709970921.0, Destaque := 0.0,
     Disponivel := 0.0, Empenhado := 709970921.0, Pago := 625691062.62 },
   { Mes := "DEZ/2015", Acao := "123H",
     Desc := "CONSTRUCAO DE SUBMARINO DE PROPULSAO NUCLEAR",
     Dotacao := 255000000.0, Provisao := 255000000.0, Destaque := 0.0,
     Disponivel := 0.0, Empenhado := 255000000.0, Pago := 255000000.0 },
   { Mes := "DEZ/2015", Acao := "123I",
     Desc := "CONSTRUCAO DE SUBMARINOS CONVENCIONAIS",
     Dotacao := 286221193.0, Provisao := 286221193.0, Destaque := 0.0,
     Disponivel := 0.0, Empenhado := 286221193.0, Pago := 286221193.0 },
   { Mes := "DEZ/2015", Acao := "14T7",
     Desc := "DESENVOLVIMENTO DE SISTEMAS DE TECNOLOGIA NUCLEAR DA MARINHA",
     Dotacao := 273523498.0, Provisao := 273523498.0, Destaque := 0.0,
     Disponivel := 0.0, Empenhado := 273523498.0, Pago := 273523498.0 },
   { Mes := "DEZ/2015", Acao := "1N47",
     Desc := "CONSTRUCAO DE NAVIOS-PATRULHA DE 500 TONELADAS (NPA 500T)",
     Dotacao := 0.0, Provisao := 0.0, Destaque := 0.0,
     Disponivel := 0.0, Empenhado := 0.0, Pago := 0.0 }]
/-- The static dataset PAC_DB of src/unnamed/part_000, a year-keyed table
of records, in source (descending-year) order. -/
def PAC_DB : List (String × List StaticRecord) :=
  [("2026", pac2026), ("2025", pac2025), ("2024", pac2024), ("2023", pac2023),
   ("2022", pac2022), ("2021", pac2021), ("2020", pac2020), ("2019", pac2019),
   ("2018", pac2018), ("2017", pac2017), ("2016", pac2016), ("2015", pac2015)]

/-- The JavaScript property access `PAC_DB[ano]`: the record list of the
year when the key is present, undefined (none) otherwise. -/
def getYear (ano : String) : Option (List StaticRecord) :=
  PAC_DB.lookup ano

/-- The `Intl.NumberFormat("pt-BR", {style: "currency", currency: "BRL"})`
formatter `brl` of src/unnamed/part_000: currency prefix and two fixed
decimals. -/
def brl (q : ℚ) : String :=
  "R$ " ++ formatFixedPtBR q 2

/-- One rendered row of renderizarTabela of src/unnamed/part_000: the nine
cells of the template literal, in source order. -/
def renderStaticRow (d : StaticRecord) : List String :=
  [d.Mes, d.Acao, d.Desc, brl d.Dotacao, brl d.Provisao, brl d.Destaque,
   brl d.Disponivel, brl d.Empenhado, brl d.Pago]

/-- Result of renderizarTabela: either the "Sem dados para o ano
selecionado (Base Local)." placeholder row, or the list of rendered data
rows. -/
inductive StaticTableRender where
  | semDados
  | linhas (rows : List (List String))
  deriving DecidableEq, Repr

/-- The function renderizarTabela of src/unnamed/part_000, restricted to
what it writes into the table body: `PAC_DB[ano]` is looked up; when the
result is undefined or an empty array the placeholder row is shown
(`if (!dadosAno || dadosAno.length === 0)`); otherwise one row is appended
per record, in array order.  The function is total: no exception is thrown
for an unknown year. -/
def renderizarTabela (ano : String) : StaticTableRender :=
  match getYear ano with
  | none => .semDados
  | some dadosAno =>
      if dadosAno.isEmpty then .semDados
      else .linhas (dadosAno.map renderStaticRow)

/-- A fixed previous table state used by witnesses: one header cell and one
body row already rendered. -/
def sampleView : TableView :=
  { header := ["OLD"]
    body := [(RowKind.ActionRow, ["old cell"])]
    errorText := none
    containerVisible := true }

/-- A failing upstream response with a detail message, used by witnesses. -/
def failResp : ApiResponse :=
  { ok := false, status := 500, detail := some "boom", rows := [] }

/-- A successful upstream response with one all-null row, used by
witnesses. -/
def okResp : ApiResponse :=
  { ok := true, status := 200, detail := none
    rows := [{ PROGRAMA := some "Programa X", ACAO := some "123H",
               LOA := .null, DOTACAO_ATUAL := .null, DISPONIVEL := .null,
               EMPENHADO_c := .null, LIQUIDADO := .null, PAGO := .null,
               PCT_EMP_DOT := .null }] }

/-- C1: for every input row processed by the extended (five-value ledger)
formula of src/unnamed/part_001, the execution indicator equals
(committed - available) / committed whenever the (coalesced) committed
value is nonzero, and equals 0 whenever it is zero, regardless of the
available value. -/
theorem novoIndicador_spec (row : ApiRow) :
    (row.EMPENHADO_c.orZero ≠ 0 →
      novoIndicador row =
        (row.EMPENHADO_c.orZero - row.DISPONIVEL.orZero) / row.EMPENHADO_c.orZero)
    ∧ (row.EMPENHADO_c.orZero = 0 → novoIndicador row = 0) := by
  unfold novoIndicador
  constructor
  · intro h
    simp [h]
  · intro h
    simp [h]

/-- C2: row classification precedence - PROGRAMA = "Total Geral" gives
GrandTotal; otherwise a null AÇÃO gives ProgramHeader; otherwise ActionRow;
and in particular a row with null AÇÃO and PROGRAMA = "Total Geral" is
GrandTotal, not ProgramHeader. -/
theorem classifyRow_spec (p a : Option String) :
    (p = some "Total Geral" → classifyRow p a = RowKind.GrandTotal)
    ∧ (p ≠ some "Total Geral" → a = none → classifyRow p a = RowKind.ProgramHeader)
    ∧ (p ≠ some "Total Geral" → a ≠ none → classifyRow p a = RowKind.ActionRow)
    ∧ classifyRow (some "Total Geral") none = RowKind.GrandTotal := by
  refine ⟨fun hp => by simp [classifyRow, hp],
          fun hp ha => by simp [classifyRow, hp, ha],
          fun hp ha => by simp [classifyRow, hp, ha],
          by decide⟩

/-- C3: for every year key absent from PAC_DB, the lookup yields the empty
result (undefined) and renderizarTabela shows the "no data" placeholder.
No exception can be raised: renderizarTabela is a total function into
StaticTableRender. -/
theorem getYear_absent (ano : String) (h : getYear ano = none) :
    renderizarTabela ano = StaticTableRender.semDados := by
  unfold renderizarTabela
  rw [h]

/-- Witness for C3 at the concrete absent key "2027". -/
theorem getYear_absent_witness :
    getYear "2027" = none ∧ renderizarTabela "2027" = StaticTableRender.semDados :=
  ⟨by decide, getYear_absent "2027" (by decide)⟩

/-- C4: on a non-ok upstream response, fetchAndRenderTable of
src/static/pac.js renders no rows and leaves the previously rendered
header and body untouched (the clearing lines run only after the ok
check), and surfaces an error banner carrying the parsed detail string
when present and nonempty, otherwise the HTTP status code. -/
theorem fetchAndRenderTable_failure (prev : TableView) (ano : String)
    (resp : ApiResponse) (h : resp.ok = false) :
    (fetchAndRenderTable prev ano resp).body = prev.body
    ∧ (fetchAndRenderTable prev ano resp).header = prev.header
    ∧ (fetchAndRenderTable prev ano resp).errorText =
        some ("Erro ao consultar " ++ ano ++ ": " ++ errMessage resp)
    ∧ (∀ d, resp.detail = some d → d ≠ "" → errMessage resp = d)
    ∧ (resp.detail = none → errMessage resp = "Erro HTTP " ++ toString resp.status) := by
  unfold fetchAndRenderTable
  refine ⟨by simp [h], by simp [h], by simp [h], fun d hd hne => ?_, fun hd => ?_⟩
  · unfold errMessage
    rw [hd]
    simp [hne]
  · unfold errMessage
    rw [hd]

/-- Witness for C4: a concrete 500 response with detail "boom" against a
previously rendered table. -/
theorem fetchAndRenderTable_failure_witness :
    failResp.ok = false
    ∧ (fetchAndRenderTable sampleView "2025" failResp).body = sampleView.body
    ∧ (fetchAndRenderTable sampleView "2025" failResp).errorText =
        some "Erro ao consultar 2025: boom" :=
  ⟨rfl,
   (fetchAndRenderTable_failure sampleView "2025" failResp rfl).1,
   ((fetchAndRenderTable_failure sampleView "2025" failResp rfl).2.2.1).trans (by decide)⟩

/-- C5 counterexample: the claim says the fallback to the current year
detail table happens in the 404 case and only in that case, but the catch
block of fetchAndRenderChart calls fetchAndRenderTable(currentYear)
unconditionally: here a non-404 failure ("Erro HTTP 500") also triggers
the fallback. -/
theorem chartCatch_fallback_not_only_404 :
    containsSubstring "Erro HTTP 500" "404" = false
    ∧ fetchAndRenderChartCatch "Erro HTTP 500" 2025 =
        { errorText := "Erro ao carregar o gráfico: Erro HTTP 500"
          tableFetchYear := some 2025 } := by
  decide

/-- C5 amended: a 404 failure shows the distinct "data still being
compiled" banner and any other failure shows the generic banner, and in
every failure case - not only 404 - the renderer falls back to requesting
the current year detail table. -/
theorem chartCatch_spec (errMsg : String) (y : ℕ) :
    (containsSubstring errMsg "404" = true →
      (fetchAndRenderChartCatch errMsg y).errorText = pacCompilingMsg)
    ∧ (containsSubstring errMsg "404" = false →
      (fetchAndRenderChartCatch errMsg y).errorText =
        "Erro ao carregar o gráfico: " ++ errMsg)
    ∧ (fetchAndRenderChartCatch errMsg y).tableFetchYear = some y := by
  unfold fetchAndRenderChartCatch
  exact ⟨fun h => by simp [h], fun h => by simp [h], rfl⟩

/-- C6: every value that is not of number type (null, undefined, a string)
renders as zero - "R$ 0,00" for currency and "0,0%" for percentage - in
both formatter variants, never as a blank cell or "N/A". -/
theorem format_nonNumber_zero (v : JSValue) (h : v.isNumberType = false) :
    formatCurrency v = "R$ 0,00"
    ∧ formatPercent v = "0,0%"
    ∧ formatPercentChecked v = "0,0%" := by
  cases v <;>
    simp_all [JSValue.isNumberType, formatCurrency, formatPercent, formatPercentChecked]

/-- Witness for C6 at the concrete missing value null. -/
theorem format_nonNumber_zero_witness :
    JSValue.null.isNumberType = false
    ∧ formatCurrency JSValue.null = "R$ 0,00"
    ∧ formatPercent JSValue.null = "0,0%" :=
  ⟨rfl, (format_nonNumber_zero JSValue.null rfl).1,
   (format_nonNumber_zero JSValue.null rfl).2.1⟩

/-- C7: on a successful response, fetchAndRenderTable replaces any
previously rendered table with exactly one rendered row per input record,
in input order (the body is the map of pacRenderRow over the data array,
independent of the previous state), with the fixed headers and no error
banner. -/
theorem fetchAndRenderTable_success (prev : TableView) (ano : String)
    (resp : ApiResponse) (h : resp.ok = true) :
    (fetchAndRenderTable prev ano resp).body = resp.rows.map pacRenderRow
    ∧ (fetchAndRenderTable prev ano resp).body.length = resp.rows.length
    ∧ (∀ i : ℕ, ((fetchAndRenderTable prev ano resp).body)[i]? =
        (resp.rows[i]?).map pacRenderRow)
    ∧ (fetchAndRenderTable prev ano resp).header = pacHeaders
    ∧ (fetchAndRenderTable prev ano resp).errorText = none := by
  unfold fetchAndRenderTable
  refine ⟨by simp [h], by simp [h], fun i => ?_, by simp [h], by simp [h]⟩
  simp [h, List.getElem?_map]

/-- Witness for C7: a concrete success response with one row, rendered
over a non-empty previous table. -/
theorem fetchAndRenderTable_success_witness :
    okResp.ok = true
    ∧ (fetchAndRenderTable sampleView "2025" okResp).body = okResp.rows.map pacRenderRow
    ∧ (fetchAndRenderTable sampleView "2025" okResp).body.length = okResp.rows.length :=
  ⟨rfl, (fetchAndRenderTable_success sampleView "2025" okResp rfl).1,
   (fetchAndRenderTable_success sampleView "2025" okResp rfl).2.1⟩

/-- C8: the 2025 fixture row of action 123H carries
Dotacao = 332675762.0, Empenhado = 332671639.63, Disponivel = 4122.37;
on those values the extended indicator formula yields
(332671639.63 - 4122.37) / 332671639.63, which lies strictly between
0.999987 and 0.999989 (so is approximately 0.999988), and the one-decimal
percentage formatter renders it as "100,0%" under the half-away-from-zero
rounding of toLocaleString. -/
theorem indicator_123H_2025 :
    pac2025[1]? =
      some
        { Mes := "DEZ/2025", Acao := "123H",
          Desc := "CONSTRUCAO DE SUBMARINO DE PROPULSAO NUCLEAR",
          Dotacao := 332675762.0, Provisao := 273641399.0, Destaque := 0.0,
          Disponivel := 4122.37, Empenhado := 332671639.63, Pago := 113333333.34 }
    ∧ novoIndicador
        { PROGRAMA := some "Programa X", ACAO := some "123H",
          LOA := .null, DOTACAO_ATUAL := .num 332675762.0,
          DISPONIVEL := .num 4122.37, EMPENHADO_c := .num 332671639.63,
          LIQUIDADO := .null, PAGO := .null, PCT_EMP_DOT := .null } =
      (332671639.63 - 4122.37) / 332671639.63
    ∧ (0.999987 : ℚ) < (332671639.63 - 4122.37) / 332671639.63
    ∧ ((332671639.63 - 4122.37) / 332671639.63 : ℚ) < 0.999989
    ∧ formatPercent (JSValue.num ((332671639.63 - 4122.37) / 332671639.63)) = "100,0%" := by
  decide

/-- C9: every year of PAC_DB maps to exactly five records carrying the
action codes 123G, 123H, 123I, 14T7, 1N47 in that order, all records of a
year share one month label, and the ledger identity
Disponivel = Dotacao - Empenhado holds exactly on every record. -/
theorem PAC_DB_invariant :
    ∀ p ∈ PAC_DB,
      p.2.length = 5
      ∧ p.2.map StaticRecord.Acao = ["123G", "123H", "123I", "14T7", "1N47"]
      ∧ (∀ r ∈ p.2, r.Disponivel = r.Dotacao - r.Empenhado)
      ∧ (∀ r ∈ p.2, ∀ s ∈ p.2, r.Mes = s.Mes) := by
  decide

/-- Witness for C9 at the concrete year 2025. -/
theorem PAC_DB_invariant_witness :
    ("2025", pac2025) ∈ PAC_DB
    ∧ pac2025.map StaticRecord.Acao = ["123G", "123H", "123I", "14T7", "1N47"] :=
  ⟨by decide, (PAC_DB_invariant ("2025", pac2025) (by decide)).2.1⟩

/-- C10 counterexample: the two formatPercent variants disagree on NaN
(which is of number type but fails isNaN): the src/static/pac.js variant
renders "NaN%" while the src/unnamed/part_001 variant renders "0,0%". -/
theorem formatPercent_variants_differ :
    formatPercent JSValue.nan = "NaN%"
    ∧ formatPercentChecked JSValue.nan = "0,0%"
    ∧ formatPercent JSValue.nan ≠ formatPercentChecked JSValue.nan := by
  decide

/-- C10 amended: the two formatPercent variants return the same formatted
string for every input value other than NaN. -/
theorem formatPercent_variants_agree (v : JSValue) (h : v ≠ JSValue.nan) :
    formatPercent v = formatPercentChecked v := by
  cases v <;> simp_all [formatPercent, formatPercentChecked]

/-- Witness for the amended C10 at the concrete non-NaN value null. -/
theorem formatPercent_variants_agree_witness :
    JSValue.null ≠ JSValue.nan
    ∧ formatPercent JSValue.null = formatPercentChecked JSValue.null :=
  ⟨by decide, formatPercent_variants_agree JSValue.null (by decide)⟩
